import Mathlib

/-!
Verification development for the ConvertX batch file converter.

The repository consists of a React frontend (three variants of `App.js`:
`src/frontend/src/App.js`, `src/unnamed/part_001`, `src/unnamed/part_002`)
that calls a Flask backend over HTTP.  The backend itself is not part of
the source tree; where a claim is decided by backend behaviour we model
the missing component from the specification and say so in its doc
comment.  All other definitions below are shallow embeddings of the
JavaScript functions in the frontend sources, translated line by line.
-/

namespace ConvertX

/-- Embedding of the JavaScript expression `s.toUpperCase()` restricted to
the character-wise uppercase map (ASCII-faithful). -/
def jsToUpper (s : String) : String :=
  String.mk (s.data.map Char.toUpper)

/-- Embedding of the JavaScript expression `s.split(sep)` at the level of
character lists: splits on every occurrence of `sep`, keeping empty
segments, and yields `[[]]` on the empty string, exactly as in JS. -/
def jsSplitChar (sep : Char) : List Char → List (List Char)
  | [] => [[]]
  | c :: cs =>
    if c = sep then [] :: jsSplitChar sep cs
    else
      match jsSplitChar sep cs with
      | [] => [[c]]
      | h :: t => (c :: h) :: t

/-- Embedding of `name.split(".")` from `detectFileFormat`. -/
def jsSplitDot (s : String) : List String :=
  (jsSplitChar '.' s.data).map String.mk

/-- Embedding of `array.pop()` applied to the (always nonempty) result of
`split` — it returns the last element. -/
def jsLast (l : List String) : String :=
  l.getLastD ""

/-- Embedding of `detectFileFormat` from `src/frontend/src/App.js`
(lines 300-314): the format tag is
`file.name.split(".").pop().toUpperCase()`.  The file contents are
received but never inspected, which the extra `contents` argument makes
explicit. -/
def detectFileFormat (contents : List Nat) (name : String) : String :=
  let _ := contents
  jsToUpper (jsLast (jsSplitDot name))

/-- Embedding of `getConversionOptions` (identical in all three frontend
variants, e.g. `src/frontend/src/App.js` lines 47-59): a switch on
`format.toUpperCase()` with fall-through cases JPG/JPEG/PNG/BMP. -/
def getConversionOptions (format : String) : List String :=
  if jsToUpper format = "PDF" then ["DOCX"]
  else if jsToUpper format = "JPG" ∨ jsToUpper format = "JPEG" ∨
      jsToUpper format = "PNG" ∨ jsToUpper format = "BMP" then
    ["PNG", "JPG", "JPEG"]
  else []

/-- The compression setting attached to a file in `src/unnamed/part_001`:
either a named tier string (PDF), a numeric quality (raster formats), or
JavaScript `null`. -/
inductive Compression where
  | tier (level : String)
  | quality (q : Nat)
  | null
deriving Repr, DecidableEq, Inhabited

/-- Embedding of `getDefaultCompression` from `src/unnamed/part_001`
(lines 331-343). -/
def getDefaultCompression (format : String) : Compression :=
  if jsToUpper format = "PDF" then Compression.tier "medium"
  else if jsToUpper format = "JPG" ∨ jsToUpper format = "JPEG" ∨
      jsToUpper format = "PNG" ∨ jsToUpper format = "BMP" then
    Compression.quality 80
  else Compression.null

/-- The per-file record kept in the `fileInfos` React state of
`src/unnamed/part_001` / `part_002` (the random `id` and the opaque file
object are omitted; neither is read by the logic modelled here).
`progress` is read in the sources as `info.progress || 0`, so its initial
absent value is embedded as `0`. -/
structure FileInfo where
  name : String
  format : String
  selectedFormat : String
  compression : Compression
  status : String
  error : Option String
  downloadUrl : Option String
  progress : Nat
deriving Repr, DecidableEq, Inhabited

/-- Embedding of the `fileInfo` object built in `detectFileFormat` of
`src/unnamed/part_001` (lines 311-321): `status: "pending"`,
`selectedFormat: getConversionOptions(data.format)[0] || ""`, null error
and download link. -/
def mkFileInfo (name : String) (format : String) : FileInfo :=
  { name := name
    format := format
    selectedFormat := ((getConversionOptions format).getD 0 "")
    compression := getDefaultCompression format
    status := "pending"
    error := none
    downloadUrl := none
    progress := 0 }

/-- One record of the `results` array sent by the backend and consumed by
both `handleConvertAll` variants.  Fields that JavaScript may leave
undefined are embedded as `Option`. -/
structure ResultRecord where
  filename : String
  status : String
  error : Option String
  downloadUrl : Option String
  progress : Option Nat
deriving Repr, DecidableEq, Inhabited

/-- Embedding of the JavaScript expression `x || null` on a possibly
absent string: the empty string is falsy and collapses to `null`. -/
def jsStrOrNone : Option String → Option String
  | some s => if s = "" then none else some s
  | none => none

/-- Embedding of the per-file join in `handleConvertAll`
(`src/unnamed/part_001` lines 437-450 and, verbatim identical,
`src/unnamed/part_002` lines 351-364): look up the first result record
whose `filename` equals the file `name`; if none matches, return the
info unchanged; otherwise overwrite `status`, `error`, `downloadUrl`
(prefixed with the backend URL) and `progress`. -/
def updateInfo (backendUrl : String) (results : List ResultRecord)
    (info : FileInfo) : FileInfo :=
  match results.find? (fun r => r.filename == info.name) with
  | none => info
  | some r =>
    { info with
      status := r.status
      error := jsStrOrNone r.error
      downloadUrl :=
        match r.downloadUrl with
        | some u => if u = "" then none else some (backendUrl ++ u)
        | none => none
      progress := r.progress.getD 0 }

/-- Embedding of `prevInfos.map(info => ...)` around `updateInfo`. -/
def updateInfos (backendUrl : String) (infos : List FileInfo)
    (results : List ResultRecord) : List FileInfo :=
  infos.map (updateInfo backendUrl results)

/-- Final client state of the newline-delimited streaming binding
(`src/unnamed/part_001` lines 402-465): every parsed frame with a
`results` array is folded through the per-file join, and after the
stream ends the overall progress is set to `100` unconditionally
(line 464 `setProgress(100)`). -/
def streamingRun (backendUrl : String) (infos : List FileInfo)
    (frames : List (List ResultRecord)) : List FileInfo × Nat :=
  (frames.foldl (fun acc rs => updateInfos backendUrl acc rs) infos, 100)

/-- Embedding of `Math.round(a / b)` for natural numbers (JavaScript
rounds half up, giving floor of a divided by b plus one half).  The
sources only evaluate it with a positive denominator. -/
def jsRoundDiv (a b : Nat) : Nat :=
  (2 * a + b) / (2 * b)

/-- Embedding of
`data.results.reduce((sum, result) => sum + (result.progress || 0), 0)`
from `src/unnamed/part_002` line 346. -/
def sumProgress (results : List ResultRecord) : Nat :=
  results.foldl (fun s r => s + r.progress.getD 0) 0

/-- Final client state of the one-shot aggregate binding
(`src/unnamed/part_002` lines 341-366): the overall progress is the
rounded mean of the per-file `progress` values, and the per-file join is
applied once to the single results array. -/
def oneShotRun (backendUrl : String) (infos : List FileInfo)
    (results : List ResultRecord) : List FileInfo × Nat :=
  (updateInfos backendUrl infos results,
   jsRoundDiv (sumProgress results) results.length)

/-- The three ways `src/unnamed/part_001` (lines 636-699) renders a file
item: conversion controls while pending, the download section on
success, and the error text otherwise. -/
inductive RenderBranch where
  | controls
  | download
  | errorText
deriving Repr, DecidableEq

/-- Embedding of the rendering conditional
`info.status === "pending" ? ... : info.status === "success" ? ... : ...`
from `src/unnamed/part_001` lines 636, 682 and 697. -/
def renderBranch (info : FileInfo) : RenderBranch :=
  if info.status = "pending" then RenderBranch.controls
  else if info.status = "success" then RenderBranch.download
  else RenderBranch.errorText

/-- The per-file record built by the `src/frontend/src/App.js` variant of
`detectFileFormat` (lines 305-314). -/
structure LocalFileInfo where
  name : String
  format : String
  size : Nat
  outputFormat : String
  status : String
deriving Repr, DecidableEq, Inhabited

/-- Embedding of `detectFileFormat` from `src/frontend/src/App.js`
(lines 300-314): derive the format from the filename, then build the
info record with `outputFormat: conversionOptions[0] || ""` and
`status: "pending"`. -/
def mkLocalFileInfo (contents : List Nat) (name : String) (size : Nat) :
    LocalFileInfo :=
  let format := detectFileFormat contents name
  let conversionOptions := getConversionOptions format
  { name := name
    format := format
    size := size
    outputFormat := conversionOptions.getD 0 ""
    status := "pending" }

/-- Modelled from the spec: the Batch Orchestrator of section 4.4 lives in
the Flask backend, which is absent from the source tree (only its
frontend callers are present).  Following the spec, each progress event
carries `completedCount`, `totalJobs`, the overall percentage and the
incremental list of per-job outcomes (`true` for succeeded). -/
structure ProgressEvent where
  completedCount : Nat
  totalJobs : Nat
  overallProgress : Nat
  newResults : List Bool
deriving Repr, DecidableEq, Inhabited

/-- Modelled from the spec: the Batch Orchestrator runs the jobs of a
batch and, as each job reaches a terminal state (succeeded or failed),
increments `completedCount` and emits one progress event whose
percentage is `round(100 * completedCount / totalJobs)` (spec section
4.4); the event stream for a batch with the given per-job outcomes. -/
def runBatchEvents (outcomes : List Bool) : List ProgressEvent :=
  (List.range outcomes.length).map (fun i =>
    { completedCount := i + 1
      totalJobs := outcomes.length
      overallProgress := jsRoundDiv (100 * (i + 1)) outcomes.length
      newResults := [outcomes.getD i true] })

/-- Modelled from the spec: the Single-File Converter of section 4.3 is
backend code absent from the source tree; per the spec, a numeric
quality outside [1,100] is clamped, not rejected. -/
def clampQuality (q : Int) : Int :=
  max 1 (min 100 q)

/-- Modelled from the spec: a raster conversion invokes the underlying
codec with the clamped quality (spec sections 4.2 and 4.3); the codec
itself is an arbitrary parameter. -/
def convertRaster (codec : List Nat → Int → List Nat) (bytes : List Nat)
    (q : Int) : List Nat :=
  codec bytes (clampQuality q)

/-- The streamed frames merged into a single results array in which a
record of a later frame takes precedence over any record of an earlier
frame with the same filename. -/
def mergeFrames : List (List ResultRecord) → List ResultRecord
  | [] => []
  | f :: fs => mergeFrames fs ++ f

/-! ## Concrete fixtures used by counterexamples and witnesses -/

/-- A freshly submitted PNG file named `a.png`. -/
def pngInfo : FileInfo := mkFileInfo "a.png" "PNG"

/-- A backend record reporting success for `a.png`. -/
def successRecord : ResultRecord :=
  { filename := "a.png"
    status := "success"
    error := none
    downloadUrl := some "/downloads/a.jpg"
    progress := some 100 }

/-- A backend record reporting the status literally named `succeeded`
for `a.png`. -/
def succeededRecord : ResultRecord :=
  { filename := "a.png"
    status := "succeeded"
    error := none
    downloadUrl := some "/downloads/a.jpg"
    progress := some 100 }

/-- A backend record reporting failure for `a.png` with progress 0. -/
def failedRecord : ResultRecord :=
  { filename := "a.png"
    status := "failed"
    error := some "conversion failed"
    downloadUrl := none
    progress := some 0 }

/-- A backend record for the unrelated file `b.png`. -/
def otherRecord : ResultRecord :=
  { filename := "b.png"
    status := "failed"
    error := some "boom"
    downloadUrl := none
    progress := some 0 }

/-- A freshly submitted JPG file named `b.jpg`. -/
def jpgInfo : FileInfo := mkFileInfo "b.jpg" "JPG"

/-- A backend record reporting success for `b.jpg`. -/
def successRecordB : ResultRecord :=
  { filename := "b.jpg"
    status := "success"
    error := none
    downloadUrl := some "/downloads/b.png"
    progress := some 100 }

/-- A backend record reporting success for the duplicated name
`dup.png`. -/
def dupRecord : ResultRecord :=
  { filename := "dup.png"
    status := "success"
    error := none
    downloadUrl := some "/downloads/dup.jpg"
    progress := some 100 }

/-! ## Helper lemmas -/

theorem updateInfo_name (backendUrl : String) (results : List ResultRecord)
    (info : FileInfo) : (updateInfo backendUrl results info).name = info.name := by
  unfold updateInfo
  cases results.find? (fun r => r.filename == info.name) <;> rfl

theorem updateInfo_nil (backendUrl : String) (info : FileInfo) :
    updateInfo backendUrl [] info = info := by
  unfold updateInfo
  rfl

theorem updateInfo_eq_of_none (backendUrl : String)
    (results : List ResultRecord) (info : FileInfo)
    (h : results.find? (fun r => r.filename == info.name) = none) :
    updateInfo backendUrl results info = info := by
  unfold updateInfo
  rw [h]

theorem updateInfo_eq_of_some (backendUrl : String)
    (results : List ResultRecord) (info : FileInfo) (r : ResultRecord)
    (h : results.find? (fun r => r.filename == info.name) = some r) :
    updateInfo backendUrl results info =
      { info with
        status := r.status
        error := jsStrOrNone r.error
        downloadUrl :=
          match r.downloadUrl with
          | some u => if u = "" then none else some (backendUrl ++ u)
          | none => none
        progress := r.progress.getD 0 } := by
  unfold updateInfo
  rw [h]

theorem updateInfo_updateInfo (backendUrl : String)
    (rs₁ rs₂ : List ResultRecord) (info : FileInfo) :
    updateInfo backendUrl rs₂ (updateInfo backendUrl rs₁ info) =
      updateInfo backendUrl (rs₂ ++ rs₁) info := by
  cases h₁ : rs₁.find? (fun r => r.filename == info.name) with
  | none =>
    rw [updateInfo_eq_of_none backendUrl rs₁ info h₁]
    cases h₂ : rs₂.find? (fun r => r.filename == info.name) with
    | none =>
      rw [updateInfo_eq_of_none backendUrl rs₂ info h₂,
        updateInfo_eq_of_none backendUrl (rs₂ ++ rs₁) info
          (by rw [List.find?_append, h₁, h₂]; rfl)]
    | some r₂ =>
      rw [updateInfo_eq_of_some backendUrl rs₂ info r₂ h₂,
        updateInfo_eq_of_some backendUrl (rs₂ ++ rs₁) info r₂
          (by rw [List.find?_append, h₁, h₂]; rfl)]
  | some r₁ =>
    rw [updateInfo_eq_of_some backendUrl rs₁ info r₁ h₁]
    cases h₂ : rs₂.find? (fun r => r.filename == info.name) with
    | none =>
      unfold updateInfo
      simp only [List.find?_append, h₁, h₂, Option.none_or]
    | some r₂ =>
      unfold updateInfo
      simp only [List.find?_append, h₁, h₂, Option.or_some]

theorem updateInfos_updateInfos (backendUrl : String)
    (infos : List FileInfo) (rs₁ rs₂ : List ResultRecord) :
    updateInfos backendUrl (updateInfos backendUrl infos rs₁) rs₂ =
      updateInfos backendUrl infos (rs₂ ++ rs₁) := by
  unfold updateInfos
  rw [List.map_map]
  exact List.map_congr_left (fun info _ => updateInfo_updateInfo backendUrl rs₁ rs₂ info)

theorem updateInfos_nil (backendUrl : String) (infos : List FileInfo) :
    updateInfos backendUrl infos [] = infos := by
  unfold updateInfos
  rw [List.map_congr_left (fun i _ => updateInfo_nil backendUrl i)]
  exact List.map_id infos

theorem streaming_foldl_eq (backendUrl : String)
    (frames : List (List ResultRecord)) :
    ∀ infos : List FileInfo,
      frames.foldl (fun acc rs => updateInfos backendUrl acc rs) infos =
        updateInfos backendUrl infos (mergeFrames frames) := by
  induction frames with
  | nil =>
    intro infos
    simp [mergeFrames, updateInfos_nil]
  | cons f fs ih =>
    intro infos
    simp only [List.foldl_cons, mergeFrames]
    rw [ih (updateInfos backendUrl infos f), updateInfos_updateInfos]

theorem jsSplitChar_ne_nil (sep : Char) (l : List Char) :
    jsSplitChar sep l ≠ [] := by
  cases l with
  | nil => simp [jsSplitChar]
  | cons c cs =>
    unfold jsSplitChar
    by_cases h : c = sep
    · simp [h]
    · simp only [h, if_false]
      cases jsSplitChar sep cs <;> simp

theorem jsSplitChar_of_not_mem (sep : Char) (l : List Char)
    (h : sep ∉ l) : jsSplitChar sep l = [l] := by
  induction l with
  | nil => rfl
  | cons c cs ih =>
    have hc : ¬ c = sep := fun hc => h (hc ▸ List.mem_cons_self c cs)
    have hcs : sep ∉ cs := fun hm => h (List.mem_cons_of_mem c hm)
    unfold jsSplitChar
    rw [if_neg hc, ih hcs]

theorem jsSplitChar_concat_sep (sep : Char) (l : List Char) :
    jsSplitChar sep (l ++ [sep]) = jsSplitChar sep l ++ [[]] := by
  induction l with
  | nil => simp [jsSplitChar]
  | cons c cs ih =>
    by_cases h : c = sep
    · simp only [List.cons_append]
      unfold jsSplitChar
      rw [if_pos h, if_pos h, ih]
      rfl
    · simp only [List.cons_append]
      unfold jsSplitChar
      rw [if_neg h, if_neg h, ih]
      cases hcs : jsSplitChar sep cs with
      | nil => exact absurd hcs (jsSplitChar_ne_nil sep cs)
      | cons hd tl => rfl

theorem string_mk_data (s : String) : String.mk s.data = s := by
  cases s
  rfl

theorem jsRoundDiv_self_mul (n : Nat) (h : 0 < n) :
    jsRoundDiv (100 * n) n = 100 := by
  unfold jsRoundDiv
  have h2 : 0 < 2 * n := by omega
  rw [show 2 * (100 * n) + n = 2 * n * 100 + n by ring,
    Nat.mul_add_div h2, Nat.div_eq_of_lt (by omega)]

theorem jsRoundDiv_le_jsRoundDiv (a b n : Nat) (h : a ≤ b) :
    jsRoundDiv a n ≤ jsRoundDiv b n := by
  unfold jsRoundDiv
  exact Nat.div_le_div_right (by omega)

theorem renderBranch_download_iff (info : FileInfo) :
    renderBranch info = RenderBranch.download ↔ info.status = "success" := by
  unfold renderBranch
  by_cases h1 : info.status = "pending"
  · rw [if_pos h1]
    constructor
    · intro hc
      exact absurd hc (by decide)
    · intro h2
      exact absurd (h1 ▸ h2) (by decide)
  · rw [if_neg h1]
    by_cases h2 : info.status = "success"
    · rw [if_pos h2]
      exact ⟨fun _ => h2, fun _ => rfl⟩
    · rw [if_neg h2]
      constructor
      · intro hc
        exact absurd hc (by decide)
      · intro hc
        exact absurd hc h2

/-! ## Claims -/

/-- C1: counterexample is not needed; the claim is confirmed against the
spec-modelled Orchestrator.  For every batch conversion, the stream of
emitted progress events has non-decreasing `completedCount`, and the
overall-progress percentage carried by each event equals
`round(100 * completedCount / totalJobs)` and is non-decreasing across
the event sequence. -/
theorem C1_monotonic_progress (outcomes : List Bool) :
    List.Pairwise (fun a b => a ≤ b)
      ((runBatchEvents outcomes).map (fun e => e.completedCount)) ∧
    List.Pairwise (fun a b => a ≤ b)
      ((runBatchEvents outcomes).map (fun e => e.overallProgress)) ∧
    ∀ e ∈ runBatchEvents outcomes,
      e.overallProgress = jsRoundDiv (100 * e.completedCount) e.totalJobs := by
  unfold runBatchEvents
  refine ⟨?_, ?_, ?_⟩
  · rw [List.map_map]
    exact List.pairwise_map.mpr
      ((List.pairwise_lt_range _).imp
        (fun h => Nat.succ_le_succ (Nat.le_of_lt h)))
  · rw [List.map_map]
    exact List.pairwise_map.mpr
      ((List.pairwise_lt_range _).imp
        (fun {a b} h => jsRoundDiv_le_jsRoundDiv (100 * (a + 1))
          (100 * (b + 1)) outcomes.length (by omega)))
  · intro e he
    simp only [List.mem_map] at he
    obtain ⟨i, hi, rfl⟩ := he
    rfl

/-- C1 witness: the event stream of the two-job batch with one success
and one failure is monotone, and its first event carries percentage
`round(100 * 1 / 2) = 50`. -/
theorem C1_monotonic_progress_witness :
    List.Pairwise (fun a b => a ≤ b)
      ((runBatchEvents [true, false]).map (fun e => e.completedCount)) ∧
    ({ completedCount := 1, totalJobs := 2, overallProgress := 50,
        newResults := [true] } : ProgressEvent).overallProgress =
      jsRoundDiv (100 * 1) 2 :=
  ⟨(C1_monotonic_progress [true, false]).1,
   (C1_monotonic_progress [true, false]).2.2
     { completedCount := 1, totalJobs := 2, overallProgress := 50,
       newResults := [true] } (by decide)⟩

/-- C2: for every nonempty batch of N submitted conversion requests,
regardless of per-job outcomes, the final emitted event has
`completedCount = N` and `overallProgress = 100` (spec-modelled
Orchestrator), and the in-source streaming client likewise forces its
final overall progress to 100 regardless of the received frames
(`src/unnamed/part_001` line 464). -/
theorem C2_batch_completion (outcomes : List Bool) (h : outcomes ≠ [])
    (backendUrl : String) (infos : List FileInfo)
    (frames : List (List ResultRecord)) :
    ((runBatchEvents outcomes).getLastD default).completedCount = outcomes.length ∧
    ((runBatchEvents outcomes).getLastD default).totalJobs = outcomes.length ∧
    ((runBatchEvents outcomes).getLastD default).overallProgress = 100 ∧
    (streamingRun backendUrl infos frames).2 = 100 := by
  obtain ⟨m, hm⟩ : ∃ m, outcomes.length = m + 1 := by
    cases outcomes with
    | nil => exact absurd rfl h
    | cons a l => exact ⟨l.length, rfl⟩
  unfold runBatchEvents
  rw [hm, List.range_succ, List.map_append, List.map_cons, List.map_nil,
    List.getLastD_concat]
  exact ⟨rfl, rfl, jsRoundDiv_self_mul (m + 1) (by omega), rfl⟩

/-- C2 witness: the one-job batch whose single job fails still ends with
`completedCount = 1` and `overallProgress = 100`. -/
theorem C2_batch_completion_witness :
    ((runBatchEvents [false]).getLastD default).completedCount = 1 ∧
    ((runBatchEvents [false]).getLastD default).totalJobs = 1 ∧
    ((runBatchEvents [false]).getLastD default).overallProgress = 100 ∧
    (streamingRun "" [] []).2 = 100 :=
  C2_batch_completion [false] (by decide) "" [] []

/-- C3 counterexample: the in-source detector ignores the content
signature and performs no known-set matching.  On a file carrying the
PNG magic bytes but named `photo.txt` it answers `TXT`, and on
`file.xyz`, where neither content nor a known extension matches, it
answers `XYZ` rather than `UNKNOWN`, refuting the claimed algorithm. -/
theorem C3_counterexample :
    detectFileFormat [137, 80, 78, 71, 13, 10, 26, 10] "photo.txt" = "TXT" ∧
    detectFileFormat [] "file.xyz" = "XYZ" ∧
    detectFileFormat [] "file.xyz" ≠ "UNKNOWN" := by
  refine ⟨?_, ?_, ?_⟩ <;> decide

/-- C3 amended: `detect` never inspects the content — its result is the
same for any two byte streams — and it returns the upper-cased segment
after the last dot of the filename verbatim, with no known-tag
matching and no `UNKNOWN` fallback; being a total function it never
raises. -/
theorem C3_detect_ignores_content (contents contents' : List Nat)
    (name : String) :
    detectFileFormat contents name = detectFileFormat contents' name ∧
    detectFileFormat contents name = jsToUpper (jsLast (jsSplitDot name)) :=
  ⟨rfl, rfl⟩

/-- C4 counterexample: the registry never offers BMP as a target (so the
claimed pair PNG→BMP is unsupported), while it does offer the identity
pair PNG→PNG, which the claim says is unsupported. -/
theorem C4_counterexample :
    "BMP" ∉ getConversionOptions "PNG" ∧
    "PNG" ∈ getConversionOptions "PNG" := by
  refine ⟨?_, ?_⟩ <;> decide

/-- C4 amended: PDF converts one-way to DOCX (DOCX has no targets); each
of the raster inputs JPG, JPEG, PNG and BMP converts exactly to the
target list PNG, JPG, JPEG — so BMP is accepted as input but never
offered as target, the identity raster pairs are offered, and JPG and
JPEG are distinct tags; every format outside these five has no
conversion targets. -/
theorem C4_registry_characterization :
    getConversionOptions "PDF" = ["DOCX"] ∧
    getConversionOptions "DOCX" = [] ∧
    (∀ f, jsToUpper f = "JPG" ∨ jsToUpper f = "JPEG" ∨
        jsToUpper f = "PNG" ∨ jsToUpper f = "BMP" →
      getConversionOptions f = ["PNG", "JPG", "JPEG"]) ∧
    (∀ f, jsToUpper f ≠ "PDF" → jsToUpper f ≠ "JPG" → jsToUpper f ≠ "JPEG" →
        jsToUpper f ≠ "PNG" → jsToUpper f ≠ "BMP" →
      getConversionOptions f = []) := by
  refine ⟨by decide, by decide, ?_, ?_⟩
  · intro f h
    unfold getConversionOptions
    rcases h with h | h | h | h <;> rw [h] <;> decide
  · intro f h1 h2 h3 h4 h5
    unfold getConversionOptions
    rw [if_neg h1, if_neg (by simp [h2, h3, h4, h5])]

/-- C4 witness: the characterization evaluated at lower-case `png` and
at the unknown format `gif`. -/
theorem C4_registry_characterization_witness :
    getConversionOptions "png" = ["PNG", "JPG", "JPEG"] ∧
    getConversionOptions "gif" = [] :=
  ⟨C4_registry_characterization.2.2.1 "png" (by decide),
   C4_registry_characterization.2.2.2 "gif" (by decide) (by decide)
     (by decide) (by decide) (by decide)⟩

/-- C5: for every raster conversion, with any underlying codec, quality
150 produces the same result as quality 100 and quality 0 the same as
quality 1, and the clamped quality always lies in [1, 100]
(spec-modelled Single-File Converter). -/
theorem C5_quality_clamping (codec : List Nat → Int → List Nat)
    (bytes : List Nat) :
    convertRaster codec bytes 150 = convertRaster codec bytes 100 ∧
    convertRaster codec bytes 0 = convertRaster codec bytes 1 ∧
    ∀ q : Int, 1 ≤ clampQuality q ∧ clampQuality q ≤ 100 := by
  refine ⟨?_, ?_, ?_⟩
  · unfold convertRaster
    rw [show clampQuality 150 = clampQuality 100 from by decide]
  · unfold convertRaster
    rw [show clampQuality 0 = clampQuality 1 from by decide]
  · intro q
    unfold clampQuality
    omega

/-- C6 counterexample: the terminal success state in the code is named
`success`, not `succeeded`: after a result reporting `success` the job
status is `success`, a value outside the claimed set, and the frontend
renders its download section; a job whose result reported `succeeded`
would instead be rendered through the failure branch. -/
theorem C6_counterexample :
    (updateInfo "" [successRecord] pngInfo).status = "success" ∧
    "success" ∉ (["pending", "running", "succeeded", "failed"] : List String) ∧
    renderBranch (updateInfo "" [successRecord] pngInfo) =
      RenderBranch.download ∧
    renderBranch (updateInfo "" [succeededRecord] pngInfo) =
      RenderBranch.errorText := by
  refine ⟨?_, ?_, ?_, ?_⟩ <;> decide

/-- C6 amended: a job starts in status `pending`, and when a result
record matches its filename the client transitions it directly to
whatever status the result reports, with no intermediate `running`
state of its own; the terminal success state is named `success` — the
download section is rendered exactly when the status is `success`. -/
theorem C6_client_state_machine (backendUrl : String)
    (results : List ResultRecord) (info : FileInfo) (r : ResultRecord)
    (name format : String)
    (hfind : results.find? (fun x => x.filename == info.name) = some r) :
    (updateInfo backendUrl results info).status = r.status ∧
    (renderBranch (updateInfo backendUrl results info) =
        RenderBranch.download ↔ r.status = "success") ∧
    (mkFileInfo name format).status = "pending" := by
  have h := updateInfo_eq_of_some backendUrl results info r hfind
  have hst : (updateInfo backendUrl results info).status = r.status := by
    rw [h]
  exact ⟨hst, by rw [renderBranch_download_iff, hst], rfl⟩

/-- C6 witness: the state machine evaluated on a concrete job whose
result reports `success`. -/
theorem C6_client_state_machine_witness :
    (updateInfo "" [successRecordB] jpgInfo).status = "success" ∧
    (mkFileInfo "c.pdf" "PDF").status = "pending" :=
  ⟨(C6_client_state_machine "" [successRecordB] jpgInfo successRecordB
      "c.pdf" "PDF" (by decide)).1,
   (C6_client_state_machine "" [successRecordB] jpgInfo successRecordB
      "c.pdf" "PDF" (by decide)).2.2⟩

/-- C7 counterexample: a submitted file whose name matches no record of
the result stream is returned unchanged — still `pending`, with no
error and no download link — so it ends the batch with no
ConversionResult at all, refuting the claim that every submitted file
receives exactly one result even when no entry matches it. -/
theorem C7_counterexample :
    updateInfo "" [otherRecord] pngInfo = pngInfo ∧
    pngInfo.status = "pending" ∧
    pngInfo.error = none ∧
    pngInfo.downloadUrl = none := by
  refine ⟨?_, ?_, ?_, ?_⟩ <;> decide

/-- C7 amended: a submitted file is assigned a result only when some
record of the result stream matches its filename; a freshly submitted
file with no matching record is left exactly as it was — status
`pending`, no error, no download link — i.e. it is silently left
without an outcome. -/
theorem C7_unmatched_file_unchanged (backendUrl : String)
    (results : List ResultRecord) (name format : String)
    (h : results.find? (fun r => r.filename == name) = none) :
    updateInfo backendUrl results (mkFileInfo name format) =
      mkFileInfo name format ∧
    (updateInfo backendUrl results (mkFileInfo name format)).status =
      "pending" ∧
    (updateInfo backendUrl results (mkFileInfo name format)).error = none := by
  have hu : updateInfo backendUrl results (mkFileInfo name format) =
      mkFileInfo name format :=
    updateInfo_eq_of_none backendUrl results (mkFileInfo name format) h
  refine ⟨hu, ?_, ?_⟩ <;> rw [hu] <;> rfl

/-- C7 witness: the unmatched file `a.png` against a stream that only
mentions `b.png`. -/
theorem C7_unmatched_file_unchanged_witness :
    updateInfo "x" [otherRecord] (mkFileInfo "a.png" "PNG") =
      mkFileInfo "a.png" "PNG" :=
  (C7_unmatched_file_unchanged "x" [otherRecord] "a.png" "PNG"
    (by decide)).1

/-- C8 counterexample: given the identical single per-file result (a
failure with progress 0), the streaming binding ends with overall
progress 100 while the one-shot binding ends with overall progress 0,
so the two bindings do not end in the same final state. -/
theorem C8_counterexample :
    (streamingRun "" [pngInfo] [[failedRecord]]).1 =
      (oneShotRun "" [pngInfo] [failedRecord]).1 ∧
    (streamingRun "" [pngInfo] [[failedRecord]]).2 = 100 ∧
    (oneShotRun "" [pngInfo] [failedRecord]).2 = 0 ∧
    streamingRun "" [pngInfo] [[failedRecord]] ≠
      oneShotRun "" [pngInfo] [failedRecord] := by
  refine ⟨?_, ?_, ?_, ?_⟩ <;> decide

/-- C8 amended: the two bindings share the per-file join — the streaming
binding applied to any frame sequence yields exactly the one-shot join
applied once to the frames merged with later frames taking precedence —
but their final overall progress differs in general: streaming always
ends at 100, while the one-shot binding reports the rounded mean of the
per-file progress values, so the final states coincide only when that
mean rounds to 100. -/
theorem C8_shared_join_distinct_progress (backendUrl : String)
    (infos : List FileInfo) (frames : List (List ResultRecord))
    (results : List ResultRecord) :
    (streamingRun backendUrl infos frames).1 =
      updateInfos backendUrl infos (mergeFrames frames) ∧
    (streamingRun backendUrl infos frames).2 = 100 ∧
    (oneShotRun backendUrl infos results).1 =
      updateInfos backendUrl infos results ∧
    (oneShotRun backendUrl infos results).2 =
      jsRoundDiv (sumProgress results) results.length :=
  ⟨streaming_foldl_eq backendUrl frames infos, rfl, rfl, rfl⟩

/-- C9: the per-file join matches results to files by filename equality
alone, so two submitted files sharing one name both receive the status,
error, download link and progress of the single matching record and
cannot receive distinct outcomes. -/
theorem C9_join_by_filename (backendUrl : String)
    (results : List ResultRecord) (info₁ info₂ : FileInfo)
    (r : ResultRecord) (hname : info₁.name = info₂.name)
    (hfind : results.find? (fun x => x.filename == info₁.name) = some r) :
    (updateInfo backendUrl results info₁).status = r.status ∧
    (updateInfo backendUrl results info₂).status = r.status ∧
    (updateInfo backendUrl results info₁).error =
      (updateInfo backendUrl results info₂).error ∧
    (updateInfo backendUrl results info₁).downloadUrl =
      (updateInfo backendUrl results info₂).downloadUrl ∧
    (updateInfo backendUrl results info₁).progress =
      (updateInfo backendUrl results info₂).progress := by
  have hfind₂ : results.find? (fun x => x.filename == info₂.name) = some r := by
    rw [← hname]
    exact hfind
  have h₁ := updateInfo_eq_of_some backendUrl results info₁ r hfind
  have h₂ := updateInfo_eq_of_some backendUrl results info₂ r hfind₂
  rw [h₁, h₂]
  exact ⟨rfl, rfl, rfl, rfl, rfl⟩

/-- C9 witness: two distinct files both named `dup.png` (one detected as
PNG, one as JPG) joined against a stream containing one record for that
name: both receive the status of that record. -/
theorem C9_join_by_filename_witness :
    (updateInfo "" [dupRecord] (mkFileInfo "dup.png" "PNG")).status =
      "success" ∧
    (updateInfo "" [dupRecord] (mkFileInfo "dup.png" "JPG")).status =
      "success" :=
  ⟨(C9_join_by_filename "" [dupRecord] (mkFileInfo "dup.png" "PNG")
      (mkFileInfo "dup.png" "JPG") dupRecord (by decide) (by decide)).1,
   (C9_join_by_filename "" [dupRecord] (mkFileInfo "dup.png" "PNG")
      (mkFileInfo "dup.png" "JPG") dupRecord (by decide) (by decide)).2.1⟩

/-- C10 counterexample: detection is not UNKNOWN-free — on the filename
`a.unknown` the upper-cased last dot-segment is literally `UNKNOWN`,
refuting the clause that detection never returns UNKNOWN for any
filename. -/
theorem C10_counterexample :
    detectFileFormat [] "a.unknown" = "UNKNOWN" := by
  decide

/-- C10 amended: for a filename with no dot, detection returns the
upper-cased whole filename; for a filename ending in a dot it returns
the empty string; files whose derived tag has no registered conversions
get an empty options list, an empty selected output format and status
`pending` rather than an error; UNKNOWN arises only as the verbatim
upper-casing of a literal `unknown` extension, never as a fallback. -/
theorem C10_extension_detection :
    (∀ (contents : List Nat) (name : String), '.' ∉ name.data →
      detectFileFormat contents name = jsToUpper name) ∧
    (∀ (contents : List Nat) (s : String),
      detectFileFormat contents (s ++ ".") = "") ∧
    (∀ (contents : List Nat) (name : String) (size : Nat),
      getConversionOptions (detectFileFormat contents name) = [] →
      (mkLocalFileInfo contents name size).outputFormat = "" ∧
      (mkLocalFileInfo contents name size).status = "pending") := by
  refine ⟨?_, ?_, ?_⟩
  · intro contents name h
    unfold detectFileFormat jsSplitDot jsLast
    rw [jsSplitChar_of_not_mem '.' name.data h, List.map_cons, List.map_nil,
      show ([String.mk name.data].getLastD "") = String.mk name.data from rfl,
      string_mk_data]
  · intro contents s
    unfold detectFileFormat jsSplitDot jsLast
    rw [show (s ++ ".").data = s.data ++ ['.'] from String.data_append s ".",
      jsSplitChar_concat_sep '.', List.map_append, List.map_cons,
      List.map_nil, List.getLastD_concat]
    rfl
  · intro contents name size h
    refine ⟨?_, rfl⟩
    show (getConversionOptions (detectFileFormat contents name)).getD 0 "" = ""
    rw [h]
    rfl

/-- C10 witness: detection on the dotless name `makefile`, on a name
ending in a dot, and the empty output format of the unregistered tag
`XYZ`. -/
theorem C10_extension_detection_witness :
    detectFileFormat [] "makefile" = "MAKEFILE" ∧
    detectFileFormat [] ("trailing" ++ ".") = "" ∧
    (mkLocalFileInfo [] "file.xyz" 10).outputFormat = "" :=
  ⟨(C10_extension_detection.1 [] "makefile" (by decide)).trans (by decide),
   C10_extension_detection.2.1 [] "trailing",
   (C10_extension_detection.2.2 [] "file.xyz" 10 (by decide)).1⟩

end ConvertX
